import Mathlib

/-!
Verification of the battle-state extraction and type-effectiveness core of the
`llm-pokemon-showdown` repository (`src/type_chart.py`, `src/main.py`).

The Python sources are shallowly embedded: pure string manipulation is modelled
over `List Char` with Python semantics (`str.strip`, `str.replace`,
`str.split`, substring tests, the two regular expressions used by the tooltip
parser), floats over the exactly-representable dyadic values that occur are
modelled as `ℚ`, dictionaries as association lists, and the DOM fragments that
BeautifulSoup hands to the parsing loops as lists of records carrying exactly
the attributes the Python code reads (tag name, class list, text content).
-/

namespace Showdown

/-! ## Python string primitives -/

/-- Prefix test over char lists: `hasPrefixCh pat s` is true when `pat` is a
prefix of `s`. -/
def hasPrefixCh : List Char → List Char → Bool
  | [], _ => true
  | _ :: _, [] => false
  | p :: ps, c :: cs => p == c && hasPrefixCh ps cs

/-- Python's `pat in s` substring test over char lists. -/
def containsCh (s pat : List Char) : Bool :=
  match s with
  | [] => hasPrefixCh pat []
  | _ :: t => hasPrefixCh pat s || containsCh t pat

/-- Python's `needle in hay` substring test for strings. -/
def strContains (hay needle : String) : Bool :=
  containsCh hay.toList needle.toList

/-- Python's `s.endswith(pat)`. -/
def hasSuffixCh (pat s : List Char) : Bool :=
  hasPrefixCh pat.reverse s.reverse

/-- Python's `s.startswith(pat)` for strings. -/
def pyStartsWith (s pat : String) : Bool :=
  hasPrefixCh pat.toList s.toList

/-- ASCII lower-casing of a char list (Python `str.lower` on the ASCII inputs
produced by the Showdown UI). -/
def lowerCh (s : List Char) : List Char := s.map Char.toLower

/-- ASCII upper-casing of a char list (Python `str.upper`). -/
def upperCh (s : List Char) : List Char := s.map Char.toUpper

/-- Python's `str.strip()` (whitespace from both ends) on a char list. -/
def trimCh (s : List Char) : List Char :=
  ((s.dropWhile Char.isWhitespace).reverse.dropWhile Char.isWhitespace).reverse

/-- Python's `str.strip()` on strings. -/
def pyStrip (s : String) : String := String.mk (trimCh s.toList)

/-- Python's `s.split(',')` over char lists. -/
def splitCommaCh : List Char → List (List Char)
  | [] => [[]]
  | c :: rest =>
    if c == ',' then [] :: splitCommaCh rest
    else
      match splitCommaCh rest with
      | h :: t => (c :: h) :: t
      | [] => [[c]]

/-- Python's `s.split(sep, 1)` over char lists: the part before the first
`','`, and (when a comma occurs) the remainder after it. -/
def splitFirstCommaCh : List Char → List Char × Option (List Char)
  | [] => ([], none)
  | c :: rest =>
    if c == ',' then ([], some rest)
    else
      let p := splitFirstCommaCh rest
      (c :: p.1, p.2)

/-- Python's `s.replace(pat, rep)` (all non-overlapping occurrences, left to
right) over char lists, with an explicit fuel argument for structural
recursion; each step consumes at least one input character, so fuel
`s.length` suffices. -/
def replaceChAux (pat rep : List Char) : Nat → List Char → List Char
  | 0, s => s
  | _ + 1, [] => []
  | fuel + 1, c :: rest =>
    if pat.length != 0 && hasPrefixCh pat (c :: rest) then
      rep ++ replaceChAux pat rep fuel (List.drop (pat.length - 1) rest)
    else
      c :: replaceChAux pat rep fuel rest

/-- Python's `s.replace(pat, rep)` over char lists. -/
def replaceCh (pat rep s : List Char) : List Char :=
  replaceChAux pat rep s.length s

/-- Python's `s.replace(pat, rep)` for strings. -/
def pyReplace (s pat rep : String) : String :=
  String.mk (replaceCh pat.toList rep.toList s.toList)

/-- The part of `s` strictly before the first occurrence of (non-empty) `pat`;
all of `s` when `pat` does not occur.  Models Python's `s.split(pat)[0]`. -/
def upToSub (s pat : List Char) : List Char :=
  match s with
  | [] => []
  | c :: rest => if hasPrefixCh pat (c :: rest) then [] else c :: upToSub rest pat

/-- Numeric value of a digit run. -/
def digitsToNat (ds : List Char) : Nat :=
  ds.foldl (fun a c => a * 10 + (c.toNat - 48)) 0

/-- Python's `int(s)` restricted to an optional sign followed by ASCII digits
after stripping whitespace; `none` models the `ValueError` other shapes raise
(exotic inputs Python would accept, like underscore separators, are not
modelled — no claim depends on them). -/
def pyInt (s : String) : Option Int :=
  let t := trimCh s.toList
  match t with
  | [] => none
  | '-' :: rest =>
    if !rest.isEmpty && rest.all Char.isDigit then some (-(digitsToNat rest : Int)) else none
  | '+' :: rest =>
    if !rest.isEmpty && rest.all Char.isDigit then some ((digitsToNat rest : Int)) else none
  | _ => if t.all Char.isDigit then some ((digitsToNat t : Int)) else none

/-- Maximal leading digit run of a char list, and the remainder. -/
def digitRun : List Char → List Char × List Char
  | [] => ([], [])
  | c :: cs =>
    if c.isDigit then
      let p := digitRun cs
      (c :: p.1, p.2)
    else ([], c :: cs)

/-! ## type_chart.py -/

/-- The type enumeration `TYPES` of `src/type_chart.py` (19 values). -/
def TYPES : List String :=
  ["Normal", "Fighting", "Flying", "Poison", "Ground", "Rock", "Bug", "Ghost",
   "Steel", "Fire", "Water", "Grass", "Electric", "Psychic", "Ice", "Dragon",
   "Dark", "Fairy", "Stellar"]

/-- Embeds `type_chart` of `src/type_chart.py`: the nested `match` over the
attacking and defending type strings, written as the equivalent chain of
string-equality conditionals; every wildcard branch returns `1.0`.  Floats are
modelled as `ℚ` (all values and products involved are exact dyadics). -/
def type_chart (attack_type defend_type : String) : ℚ :=
  if attack_type = "Normal" then
    if defend_type = "Ghost" then 0
    else if defend_type = "Steel" ∨ defend_type = "Rock" then 1/2
    else 1
  else if attack_type = "Fire" then
    if defend_type = "Fire" ∨ defend_type = "Water" ∨ defend_type = "Rock" ∨ defend_type = "Dragon" then 1/2
    else if defend_type = "Steel" ∨ defend_type = "Grass" ∨ defend_type = "Ice" ∨ defend_type = "Bug" then 2
    else 1
  else if attack_type = "Water" then
    if defend_type = "Water" ∨ defend_type = "Grass" ∨ defend_type = "Dragon" then 1/2
    else if defend_type = "Fire" ∨ defend_type = "Rock" ∨ defend_type = "Ground" then 2
    else 1
  else if attack_type = "Grass" then
    if defend_type = "Fire" ∨ defend_type = "Grass" ∨ defend_type = "Dragon" ∨ defend_type = "Poison" ∨
       defend_type = "Flying" ∨ defend_type = "Bug" ∨ defend_type = "Steel" then 1/2
    else if defend_type = "Water" ∨ defend_type = "Ground" ∨ defend_type = "Rock" then 2
    else 1
  else if attack_type = "Electric" then
    if defend_type = "Water" ∨ defend_type = "Flying" then 2
    else if defend_type = "Grass" ∨ defend_type = "Dragon" ∨ defend_type = "Electric" then 1/2
    else if defend_type = "Ground" then 0
    else 1
  else if attack_type = "Ice" then
    if defend_type = "Fire" ∨ defend_type = "Water" ∨ defend_type = "Ice" ∨ defend_type = "Steel" then 1/2
    else if defend_type = "Grass" ∨ defend_type = "Ground" ∨ defend_type = "Flying" ∨ defend_type = "Dragon" then 2
    else 1
  else if attack_type = "Fighting" then
    if defend_type = "Normal" ∨ defend_type = "Rock" ∨ defend_type = "Steel" ∨ defend_type = "Dark" ∨
       defend_type = "Ice" then 2
    else if defend_type = "Flying" ∨ defend_type = "Poison" ∨ defend_type = "Psychic" ∨ defend_type = "Bug" ∨
       defend_type = "Fairy" then 1/2
    else if defend_type = "Ghost" then 0
    else 1
  else if attack_type = "Poison" then
    if defend_type = "Grass" ∨ defend_type = "Fairy" then 2
    else if defend_type = "Poison" ∨ defend_type = "Ground" ∨ defend_type = "Rock" ∨ defend_type = "Ghost" then 1/2
    else if defend_type = "Steel" then 0
    else 1
  else if attack_type = "Ground" then
    if defend_type = "Grass" ∨ defend_type = "Bug" then 1/2
    else if defend_type = "Fire" ∨ defend_type = "Electric" ∨ defend_type = "Poison" ∨ defend_type = "Rock" ∨
       defend_type = "Steel" then 2
    else if defend_type = "Flying" then 0
    else 1
  else if attack_type = "Flying" then
    if defend_type = "Grass" ∨ defend_type = "Fighting" ∨ defend_type = "Bug" then 2
    else if defend_type = "Rock" ∨ defend_type = "Steel" ∨ defend_type = "Electric" then 1/2
    else 1
  else if attack_type = "Psychic" then
    if defend_type = "Fighting" ∨ defend_type = "Poison" then 2
    else if defend_type = "Psychic" ∨ defend_type = "Steel" then 1/2
    else if defend_type = "Dark" then 0
    else 1
  else if attack_type = "Bug" then
    if defend_type = "Grass" ∨ defend_type = "Psychic" ∨ defend_type = "Dark" then 2
    else if defend_type = "Fire" ∨ defend_type = "Fighting" ∨ defend_type = "Poison" ∨ defend_type = "Flying" ∨
       defend_type = "Ghost" ∨ defend_type = "Steel" ∨ defend_type = "Fairy" then 1/2
    else 1
  else if attack_type = "Ghost" then
    if defend_type = "Ghost" ∨ defend_type = "Psychic" then 2
    else if defend_type = "Dark" then 1/2
    else if defend_type = "Normal" then 0
    else 1
  else if attack_type = "Dragon" then
    if defend_type = "Dragon" then 2
    else if defend_type = "Steel" then 1/2
    else if defend_type = "Fairy" then 0
    else 1
  else if attack_type = "Dark" then
    if defend_type = "Ghost" ∨ defend_type = "Psychic" then 2
    else if defend_type = "Fighting" ∨ defend_type = "Dark" ∨ defend_type = "Fairy" then 1/2
    else 1
  else if attack_type = "Steel" then
    if defend_type = "Ice" ∨ defend_type = "Rock" ∨ defend_type = "Fairy" then 2
    else if defend_type = "Steel" ∨ defend_type = "Fire" ∨ defend_type = "Water" ∨ defend_type = "Electric" then 1/2
    else 1
  else if attack_type = "Fairy" then
    if defend_type = "Fighting" ∨ defend_type = "Dragon" ∨ defend_type = "Dark" then 2
    else if defend_type = "Poison" ∨ defend_type = "Steel" then 1/2
    else 1
  else 1

/-- The attacking types that have an explicit row in `type_chart`; every other
attacker (notably "Rock", "Stellar", "Not Specified") falls to the final
wildcard row returning `1.0`. -/
def attackRows : List String :=
  ["Normal", "Fire", "Water", "Grass", "Electric", "Ice", "Fighting", "Poison",
   "Ground", "Flying", "Psychic", "Bug", "Ghost", "Dragon", "Dark", "Steel", "Fairy"]

/-- The types whose self-pair chart entry is 1: the self-pairs on which
`determine_effectiveness t t sentinel` actually lands in the normal band
(for the nine types resisting themselves it is 1/2; for Ghost and Dragon
it is 2). -/
def neutralSelfTypes : List String :=
  ["Normal", "Fighting", "Flying", "Ground", "Rock", "Bug", "Fairy", "Stellar"]

/-- Embeds `determine_effectiveness` of `src/type_chart.py`: the product of the
two chart lookups classified by the chain of float-equality tests (the Python
function's `-> float` annotation notwithstanding, every branch returns a
string). -/
def determine_effectiveness (attacker_type defender_type1 defender_type2 : String) : String :=
  let effectiveness : ℚ := 1 * type_chart attacker_type defender_type1 * type_chart attacker_type defender_type2
  if effectiveness = 0 then "Will do nothing"
  else if effectiveness = 1/4 then "Very Resisted, will do quarter damage"
  else if effectiveness = 1/2 then "Resisted, will do half damage"
  else if effectiveness = 1 then "Will do normal amount of damage"
  else if effectiveness = 2 then "Will be super effective (2x damage)"
  else if effectiveness = 4 then "Will be very very effective (4x damage)"
  else "Will do normal amount of damage"

/-- Modelled from the spec: the six-band classifier of §4.2, mapping a product
multiplier to its descriptive band with the defensive fallback to the normal
band.  Used to compare `determine_effectiveness` against the spec's reading. -/
def classify_product (q : ℚ) : String :=
  if q = 0 then "Will do nothing"
  else if q = 1/4 then "Very Resisted, will do quarter damage"
  else if q = 1/2 then "Resisted, will do half damage"
  else if q = 1 then "Will do normal amount of damage"
  else if q = 2 then "Will be super effective (2x damage)"
  else if q = 4 then "Will be very very effective (4x damage)"
  else "Will do normal amount of damage"

/-- The closed band set of descriptors of §4.2 / §8 of the spec. -/
def sixBands : List String :=
  ["Will do nothing", "Very Resisted, will do quarter damage",
   "Resisted, will do half damage", "Will do normal amount of damage",
   "Will be super effective (2x damage)", "Will be very very effective (4x damage)"]


/-! ## parse_pokemon_tooltip (src/main.py, lines 196-349)

The BeautifulSoup layer is modelled by records carrying exactly what the loops
read from each `<p>` element: the text of its first `<small>` child (when one
exists), its full text content (Python `get_text`, with the separator used by
the code), and the text of its `span.status` child (when one exists). -/

/-- One `<p>` element of a tooltip fragment, as seen by the parsing loops. -/
structure Paragraph where
  small : Option String
  text : String
  statusSpan : Option String
  deriving DecidableEq, Repr

/-- The `status_abbreviation_map` dict of `parse_pokemon_tooltip` (main.py
lines 214-221): Showdown status codes to full names, `TOX` collapsing to
"Poison". -/
def status_abbreviation_map (code : String) : Option String :=
  if code = "BRN" then some "Burn"
  else if code = "PSN" then some "Poison"
  else if code = "TOX" then some "Poison"
  else if code = "PAR" then some "Paralysis"
  else if code = "SLP" then some "Sleep"
  else if code = "FRZ" then some "Freeze"
  else none

/-- Leftmost match of the regex `(\d+\.?\d*)%` at the head of the char list:
a maximal digit run, optionally a dot and a second maximal digit run, followed
by a literal `%`; returns the group-1 characters. -/
def matchPercentAt (cs : List Char) : Option (List Char) :=
  let p1 := digitRun cs
  if p1.1.isEmpty then none
  else
    match p1.2 with
    | '%' :: _ => some p1.1
    | '.' :: r2 =>
      let p2 := digitRun r2
      match p2.2 with
      | '%' :: _ => some (p1.1 ++ '.' :: p2.1)
      | _ => none
    | _ => none

/-- Python's `re.search(r'(\d+\.?\d*)%', s)`: the leftmost position where the
pattern matches, returning group 1. -/
def findPercent : List Char → Option (List Char)
  | [] => none
  | c :: rest =>
    match matchPercentAt (c :: rest) with
    | some g => some g
    | none => findPercent rest

/-- Python's `float(g)` on a regex group of shape `digits` or `digits.digits`
(possibly with an empty fractional part), as an exact rational. -/
def parseFloatQ (g : List Char) : ℚ :=
  let p := digitRun g
  match p.2 with
  | '.' :: r =>
    let f := digitRun r
    (digitsToNat p.1 : ℚ) + (digitsToNat f.1 : ℚ) / ((10 : ℚ) ^ f.1.length)
  | _ => (digitsToNat p.1 : ℚ)

/-- Result of the HP / fainted / status extraction of `parse_pokemon_tooltip`
(main.py lines 247-275). -/
structure HpStatus where
  hp : ℚ
  fainted : Bool
  status : String
  deriving DecidableEq, Repr

/-- The loop condition of main.py line 255: the paragraph has a `<small>`
child whose text contains "HP:". -/
def isHpPara (p : Paragraph) : Bool :=
  match p.small with
  | some s => strContains s "HP:"
  | none => false

/-- Embeds main.py lines 247-275: find the first paragraph whose `<small>`
contains "HP:"; a "(fainted)" marker in its lower-cased text forces
`fainted := true, hp := 0`, otherwise the first percentage match (if any)
overrides the default hp of 100; a `span.status` child's trimmed, upper-cased
code is mapped through `status_abbreviation_map` when recognized. -/
def parse_hp_status (ps : List Paragraph) : HpStatus :=
  match ps.find? isHpPara with
  | none => ⟨100, false, "none"⟩
  | some p =>
    let hpFainted : ℚ × Bool :=
      if strContains (String.mk (lowerCh p.text.toList)) "(fainted)" then (0, true)
      else
        match findPercent p.text.toList with
        | some g => (parseFloatQ g, false)
        | none => (100, false)
    let status :=
      match p.statusSpan with
      | some t =>
        match status_abbreviation_map (String.mk (upperCh (trimCh t.toList))) with
        | some s => s
        | none => "none"
      | none => "none"
    ⟨hpFainted.1, hpFainted.2, status⟩

/-- End positions (exclusive) of every occurrence, case-insensitively, of
"abilities:" or "abilitie:" in a char list — the two shapes the regex
`abilities?:` (literal "abilitie", optional "s", ":") can take. -/
def abilityLabelEnds : List Char → Nat → List Nat
  | [], _ => []
  | c :: rest, pos =>
    (if hasPrefixCh ("abilities:".toList) (lowerCh (c :: rest)) then [pos + 10]
     else if hasPrefixCh ("abilitie:".toList) (lowerCh (c :: rest)) then [pos + 9]
     else []) ++ abilityLabelEnds rest (pos + 1)

/-- Python's `re.sub(r'^(.*abilities?:)', '', s, flags=IGNORECASE)`: the
anchored greedy `.*` erases everything up to the END of the last occurrence of
"abilitie:"/"abilities:" (case-insensitive); when neither occurs the string is
unchanged.  Note the regex cannot match the singular label "Ability:". -/
def strip_ability_label (s : String) : String :=
  match (abilityLabelEnds s.toList 0).getLast? with
  | some e => String.mk (s.toList.drop e)
  | none => s

/-- Embeds main.py lines 284-287 applied to the ability paragraph's text:
strip, erase the label by the regex above, strip again, split on commas, strip
each piece, drop empty pieces. -/
def parse_ability_text (t : String) : List String :=
  let stripped := pyStrip (strip_ability_label (pyStrip t))
  ((splitCommaCh stripped.toList).map (fun l => String.mk (trimCh l))).filter (fun s => s ≠ "")

/-- Embeds main.py lines 277-288: the first paragraph whose `<small>` text
lower-cases to something containing "ability:" or "possible abilities:" has
its text run through `parse_ability_text`; with no such paragraph the ability
list stays empty. -/
def parse_abilities (ps : List Paragraph) : List String :=
  match ps.find? (fun p =>
    match p.small with
    | some s =>
      strContains (String.mk (lowerCh s.toList)) "ability:" ||
      strContains (String.mk (lowerCh s.toList)) "possible abilities:"
    | none => false) with
  | none => []
  | some p => parse_ability_text p.text

/-! ## get_battle_log (src/main.py, lines 980-1077)

The battle-log panel is modelled as the list of sibling nodes of the log
container, each carrying its tag name, class list, and text content
(`get_text(strip=True)` is modelled by trimming the stored text). -/

/-- One sibling node of the battle-log container. -/
structure LogNode where
  name : String
  classes : List String
  text : String
  deriving DecidableEq, Repr

/-- One parsed turn: the `BattleLogEntry` model of main.py lines 101-108. -/
structure BattleLogEntry where
  turn : Int
  actions_in_order : List String
  deriving DecidableEq, Repr

/-- An `<h2 class="battle-history">` turn header (main.py lines 1016-1017). -/
def isTurnHeader (n : LogNode) : Bool :=
  n.name == "h2" && n.classes.contains "battle-history"

/-- A `<div class="battle-history">` node, spacer or not (the anchor search of
main.py line 1010). -/
def isBattleHistoryDiv (n : LogNode) : Bool :=
  n.name == "div" && n.classes.contains "battle-history"

/-- A non-spacer `battle-history` div — the action-collection condition of
main.py lines 1021-1023. -/
def isActionDiv (n : LogNode) : Bool :=
  n.name == "div" && n.classes.contains "battle-history" && !(n.classes.contains "spacer")

/-- The sibling walk of main.py lines 1014-1029 / 1049-1064: collect trimmed,
non-empty texts of non-spacer battle-history divs until the next turn header. -/
def collectActions : List LogNode → List String
  | [] => []
  | n :: rest =>
    if isTurnHeader n then []
    else
      (if isActionDiv n && pyStrip n.text != "" then [pyStrip n.text] else []) ++
      collectActions rest

/-- The turn-0 collection of main.py lines 1006-1029: start at the FIRST
`battle-history` div anywhere in the fragment and walk forward to the first
turn header. -/
def code_turn_zero (ns : List LogNode) : List String :=
  collectActions (ns.dropWhile (fun n => !isBattleHistoryDiv n))

/-- The turn number of a header: `int(header.text.replace('Turn ', ''))` of
main.py line 1042; `none` models the `ValueError` path. -/
def parseTurnNumber (n : LogNode) : Option Int :=
  pyInt (pyReplace n.text "Turn " "")

/-- The numbered-turn loop of main.py lines 1040-1071: one entry per header in
document order; a header whose text fails `int()` raises, which the
surrounding `except` turns into discarding the whole log (modelled by
`none`). -/
def code_entries : List LogNode → Option (List BattleLogEntry)
  | [] => some []
  | n :: rest =>
    if isTurnHeader n then
      match parseTurnNumber n, code_entries rest with
      | some t, some es => some (⟨t, collectActions rest⟩ :: es)
      | _, _ => none
    else code_entries rest

/-- Embeds `get_battle_log` (main.py lines 980-1077): the synthesized turn-0
entry (only when non-empty) followed by the numbered entries; any header that
fails integer parsing makes the whole call return `[]` via the outer
`except`. -/
def get_battle_log (ns : List LogNode) : List BattleLogEntry :=
  match code_entries ns with
  | none => []
  | some es =>
    (if code_turn_zero ns ≠ [] then [⟨0, code_turn_zero ns⟩] else []) ++ es

/-- Modelled from the spec (§4.1 `parse_turn_log`): trimmed non-empty texts of
the non-spacer battle-history elements of a node list, in document order. -/
def actionTexts (ns : List LogNode) : List String :=
  ns.filterMap (fun n => if isActionDiv n && pyStrip n.text != "" then some (pyStrip n.text) else none)

/-- Modelled from the spec (§4.1): "everything before the first header is
collected as turn 0". -/
def spec_turn_zero (ns : List LogNode) : List String :=
  actionTexts (ns.takeWhile (fun n => !isTurnHeader n))

/-- Modelled from the spec (§4.1): "everything between consecutive headers (or
after the last header) is collected as that header's turn, using header text
parsed as an integer turn number"; the unparseable-header guard mirrors the
code so the two functions are comparable. -/
def spec_segments : List LogNode → Option (List BattleLogEntry)
  | [] => some []
  | n :: rest =>
    if isTurnHeader n then
      match parseTurnNumber n, spec_segments rest with
      | some t, some es =>
        some (⟨t, actionTexts (rest.takeWhile (fun k => !isTurnHeader k))⟩ :: es)
      | _, _ => none
    else spec_segments rest

/-- Modelled from the spec (§4.1): the full `parse_turn_log` reading — the
pre-header region as turn 0 (only when non-empty), then the per-header
segments. -/
def spec_battle_log (ns : List LogNode) : List BattleLogEntry :=
  match spec_segments ns with
  | none => []
  | some es =>
    (if spec_turn_zero ns ≠ [] then [⟨0, spec_turn_zero ns⟩] else []) ++ es

/-- The turn numbers of the headers of a fragment, in document order (headers
whose text fails `int()` are dropped; on such fragments `get_battle_log`
returns `[]` anyway). -/
def header_turns (ns : List LogNode) : List Int :=
  ns.filterMap (fun n => if isTurnHeader n then parseTurnNumber n else none)

/-! ## execute_move and terastallize (src/main.py, lines 551-578 and 830-861) -/

/-- The `BattleMove` model of main.py lines 111-123 (the pydantic `Literal`
constraint on `action` lives in the external decision-maker; the validator
claims quantify over arbitrary strings, as `execute_move` itself does). -/
structure BattleMove where
  action : String
  terastallize : Bool
  reason : String
  deriving DecidableEq, Repr

/-- The parts of the `get_controls` result dict that `execute_move` reads:
`available_switches` (action key to Pokemon name), the team's `pokemon_dict`
(name to button tooltip identifier), `moves_dict` (action key to the move's
`value`), and whether the terastallize checkbox is present / already
selected. -/
structure BattleControls where
  available_switches : List (String × String)
  team_pokemon_dict : List (String × String)
  moves_dict : List (String × String)
  tera_present : Bool
  tera_selected : Bool
  deriving DecidableEq, Repr

/-- Embeds `terastallize` (main.py lines 551-578): clicking succeeds (or the
box was already selected) giving `true`; a missing checkbox raises inside and
the `except` arm returns `false`.  No exception ever escapes. -/
def terastallize (present selected : Bool) : Bool :=
  if present then
    if !selected then true else true
  else false

/-- A Python error escaping `execute_move`: a failed dict lookup
(`KeyError`) or the unbound-variable `NameError` of the fall-through path. -/
inductive PyError where
  | keyError (key : String)
  | nameError
  deriving DecidableEq, Repr

/-- The observable effect of a successful `execute_move`: which
`data-tooltip` button gets clicked, and the result of the `terastallize()`
call when the decision requested it (`none` when not requested; the Python
code discards this Bool). -/
structure ExecOutcome where
  tooltip : String
  teraClicked : Option Bool
  deriving DecidableEq, Repr

/-- Embeds `execute_move` (main.py lines 830-861): a `Switch` action is two
dict lookups (either can raise `KeyError`); a `Move` action is one lookup,
with `terastallize()` invoked when the flag is set (its failure ignored);
any other action leaves the button identifier unbound (`NameError`).  There
is no validation and no `IllegalDecision` anywhere in the code. -/
def execute_move (d : BattleMove) (c : BattleControls) : Except PyError ExecOutcome :=
  if pyStartsWith d.action "Switch" then
    match c.available_switches.lookup d.action with
    | none => .error (.keyError d.action)
    | some pokemonName =>
      match c.team_pokemon_dict.lookup pokemonName with
      | none => .error (.keyError pokemonName)
      | some tooltip => .ok ⟨tooltip, none⟩
  else if pyStartsWith d.action "Move" then
    match c.moves_dict.lookup d.action with
    | none => .error (.keyError d.action)
    | some v =>
      .ok ⟨v, if d.terastallize then some (terastallize c.tera_present c.tera_selected) else none⟩
  else .error .nameError

/-! ## get_player_team, get_controls switches, get_opponent_pokemon
(src/main.py, lines 379-442, 580-698, 794-811)

The Selenium/BeautifulSoup layer is modelled by records carrying the
attributes each loop reads.  The tooltip parse result is abstracted to the
fields these loops consume (name after title cleanup, hp, fainted), since the
tooltip parser itself is embedded separately above. -/

/-- The tooltip data a team/opponent loop reads for one Pokemon. -/
structure TooltipInfo where
  name : String
  hp : ℚ
  fainted : Bool
  deriving DecidableEq, Repr

/-- One switch button of the player's switch menu: its `value` attribute, its
class list, and its parsed tooltip. -/
structure SwitchButton where
  value : String
  classes : List String
  tooltip : TooltipInfo
  deriving DecidableEq, Repr

/-- The fields of the `Pokemon` model these claims are about. -/
structure PokemonR where
  name : String
  fainted : Bool
  hp : ℚ
  deriving DecidableEq, Repr

/-- The `Team` model (main.py lines 72-81), restricted to the fields the
switch logic reads. -/
structure TeamR where
  active_pokemon : Option PokemonR
  pokemon : List PokemonR
  deriving DecidableEq, Repr

/-- One loop step of `get_player_team` (main.py lines 606-685): skip disabled
buttons; split the button value on the first comma into name and status;
`fainted` is the tooltip flag OR the button status "fainted"; the Pokemon is
appended to the roster and becomes the active Pokemon when the button status
is "active" — with no check of its fainted flag. -/
def player_team_step (acc : TeamR) (b : SwitchButton) : TeamR :=
  if b.classes.contains "disabled" then acc
  else
    let split := splitFirstCommaCh b.value.toList
    let isActive := split.2 == some ("active".toList)
    let isFainted := split.2 == some ("fainted".toList)
    let p : PokemonR := ⟨b.tooltip.name, b.tooltip.fainted || isFainted, b.tooltip.hp⟩
    { active_pokemon := if isActive then some p else acc.active_pokemon,
      pokemon := acc.pokemon ++ [p] }

/-- Embeds `get_player_team` (main.py lines 580-698) over the switch-menu
buttons. -/
def get_player_team (btns : List SwitchButton) : TeamR :=
  btns.foldl player_team_step ⟨none, []⟩

/-- Indexing with an explicit start, mirroring Python's `enumerate`. -/
def enumFrom {α : Type} : Nat → List α → List (Nat × α)
  | _, [] => []
  | i, a :: l => (i, a) :: enumFrom (i + 1) l

/-- Embeds the switch-option construction of `get_controls` (main.py lines
794-811): for each roster index, skip fainted Pokemon and the Pokemon sharing
the active Pokemon's name, and offer key "Switch i+1" mapping to the name. -/
def available_switches (team : TeamR) : List (String × String) :=
  (enumFrom 0 team.pokemon).filterMap (fun ip =>
    if ip.2.fainted then none
    else if (match team.active_pokemon with
             | some a => ip.2.name == a.name
             | none => false) then none
    else some ("Switch " ++ toString (ip.1 + 1), ip.2.name))

/-- One opponent Pokemon icon: its `aria-label` and its parsed tooltip. -/
structure OppIcon where
  ariaLabel : String
  tooltip : TooltipInfo
  deriving DecidableEq, Repr

/-- One loop step of `get_opponent_pokemon` (main.py lines 379-436): skip
icons whose aria-label ends with "(fainted)" or is empty; the name is the
aria-label up to the first " ("; a tooltip-fainted Pokemon is skipped BEFORE
the active check, so it is neither active nor on the roster. -/
def opponent_step (acc : Option PokemonR × List PokemonR) (icon : OppIcon) :
    Option PokemonR × List PokemonR :=
  if hasSuffixCh "(fainted)".toList icon.ariaLabel.toList then acc
  else if icon.ariaLabel == "" then acc
  else
    let pokemonName := String.mk (upToSub icon.ariaLabel.toList " (".toList)
    let p : PokemonR := ⟨pokemonName, icon.tooltip.fainted, icon.tooltip.hp⟩
    if icon.tooltip.fainted then acc
    else
      ((if strContains icon.ariaLabel "(active)" then some p else acc.1), acc.2 ++ [p])

/-- Embeds `get_opponent_pokemon` (main.py lines 353-442): the currently
active opponent Pokemon (if identified) and the revealed roster. -/
def get_opponent_pokemon (icons : List OppIcon) : Option PokemonR × List PokemonR :=
  icons.foldl opponent_step (none, [])

end Showdown

namespace Showdown

/-! ## Shared lemmas about the type chart -/

/-- The sentinel "Not Specified" has no defender column in any attacker's
row: every lookup of it hits a wildcard branch and yields 1. -/
theorem type_chart_sentinel (a : String) : type_chart a "Not Specified" = 1 := by
  by_cases h1 : a = "Normal"
  · subst h1; rfl
  by_cases h2 : a = "Fire"
  · subst h2; rfl
  by_cases h3 : a = "Water"
  · subst h3; rfl
  by_cases h4 : a = "Grass"
  · subst h4; rfl
  by_cases h5 : a = "Electric"
  · subst h5; rfl
  by_cases h6 : a = "Ice"
  · subst h6; rfl
  by_cases h7 : a = "Fighting"
  · subst h7; rfl
  by_cases h8 : a = "Poison"
  · subst h8; rfl
  by_cases h9 : a = "Ground"
  · subst h9; rfl
  by_cases h10 : a = "Flying"
  · subst h10; rfl
  by_cases h11 : a = "Psychic"
  · subst h11; rfl
  by_cases h12 : a = "Bug"
  · subst h12; rfl
  by_cases h13 : a = "Ghost"
  · subst h13; rfl
  by_cases h14 : a = "Dragon"
  · subst h14; rfl
  by_cases h15 : a = "Dark"
  · subst h15; rfl
  by_cases h16 : a = "Steel"
  · subst h16; rfl
  by_cases h17 : a = "Fairy"
  · subst h17; rfl
  unfold type_chart
  rw [if_neg h1, if_neg h2, if_neg h3, if_neg h4, if_neg h5, if_neg h6, if_neg h7, if_neg h8, if_neg h9, if_neg h10, if_neg h11, if_neg h12, if_neg h13, if_neg h14, if_neg h15, if_neg h16, if_neg h17]

/-- An attacker with no explicit chart row always multiplies by 1. -/
theorem type_chart_default (a d : String) (h : a ∉ attackRows) : type_chart a d = 1 := by
  by_cases h1 : a = "Normal"
  · subst h1; exact absurd (by decide) h
  by_cases h2 : a = "Fire"
  · subst h2; exact absurd (by decide) h
  by_cases h3 : a = "Water"
  · subst h3; exact absurd (by decide) h
  by_cases h4 : a = "Grass"
  · subst h4; exact absurd (by decide) h
  by_cases h5 : a = "Electric"
  · subst h5; exact absurd (by decide) h
  by_cases h6 : a = "Ice"
  · subst h6; exact absurd (by decide) h
  by_cases h7 : a = "Fighting"
  · subst h7; exact absurd (by decide) h
  by_cases h8 : a = "Poison"
  · subst h8; exact absurd (by decide) h
  by_cases h9 : a = "Ground"
  · subst h9; exact absurd (by decide) h
  by_cases h10 : a = "Flying"
  · subst h10; exact absurd (by decide) h
  by_cases h11 : a = "Psychic"
  · subst h11; exact absurd (by decide) h
  by_cases h12 : a = "Bug"
  · subst h12; exact absurd (by decide) h
  by_cases h13 : a = "Ghost"
  · subst h13; exact absurd (by decide) h
  by_cases h14 : a = "Dragon"
  · subst h14; exact absurd (by decide) h
  by_cases h15 : a = "Dark"
  · subst h15; exact absurd (by decide) h
  by_cases h16 : a = "Steel"
  · subst h16; exact absurd (by decide) h
  by_cases h17 : a = "Fairy"
  · subst h17; exact absurd (by decide) h
  unfold type_chart
  rw [if_neg h1, if_neg h2, if_neg h3, if_neg h4, if_neg h5, if_neg h6, if_neg h7, if_neg h8, if_neg h9, if_neg h10, if_neg h11, if_neg h12, if_neg h13, if_neg h14, if_neg h15, if_neg h16, if_neg h17]

/-- The function `determine_effectiveness` is exactly the band classification
of the product of the two chart lookups. -/
theorem det_eq_classify (a d1 d2 : String) :
    determine_effectiveness a d1 d2 = classify_product (type_chart a d1 * type_chart a d2) := by
  simp only [determine_effectiveness, classify_product, one_mul]

/-- The band classifier only ever emits the six fixed descriptors. -/
theorem classify_mem (q : ℚ) : classify_product q ∈ sixBands := by
  unfold classify_product sixBands
  split_ifs <;> simp

/-- For arbitrary input strings, `determine_effectiveness` only ever emits
one of the six fixed descriptors. -/
theorem det_mem (a d1 d2 : String) : determine_effectiveness a d1 d2 ∈ sixBands := by
  rw [det_eq_classify]
  exact classify_mem _

/-! ## Claim C1 -/

/-- Claim C1 counterexample: the self-pair entry for Fire is 1/2, not 1, so
`determine_effectiveness("Fire","Fire","Not Specified")` lands in the
half-damage band rather than the normal-damage band the claim requires. -/
theorem C1_counterexample :
    determine_effectiveness "Fire" "Fire" "Not Specified" = "Resisted, will do half damage" ∧
    "Resisted, will do half damage" ≠ "Will do normal amount of damage" := by
  constructor
  · simp [determine_effectiveness, type_chart]
  · decide

/-- Claim C1 (corrected): for a type t of the enumeration,
`determine_effectiveness(t, t, "Not Specified")` returns the normal-damage
descriptor exactly when the chart's self-pair entry for t is 1, i.e. for
t in `neutralSelfTypes`; the other eleven self-pairs land in the half- or
double-damage band. -/
theorem C1_self_pairs (t : String) (ht : t ∈ TYPES) :
    (determine_effectiveness t t "Not Specified" = "Will do normal amount of damage") ↔
    t ∈ neutralSelfTypes := by
  fin_cases ht <;> simp [determine_effectiveness, type_chart, neutralSelfTypes] <;> norm_num <;> decide

/-- Witness for C1: Normal is a neutral self-pair, and the theorem instantiates
to the concrete evaluation. -/
theorem C1_witness :
    determine_effectiveness "Normal" "Normal" "Not Specified" = "Will do normal amount of damage" :=
  (C1_self_pairs "Normal" (by decide)).mpr (by decide)

/-! ## Claim C8 -/

/-- Claim C8 (confirmed, for arbitrary attacker/defender strings, hence in
particular on the enumeration): the sentinel "Not Specified" contributes
exactly multiplier 1, so `determine_effectiveness(t, X, "Not Specified")` is
the band of the single lookup of t against X alone. -/
theorem C8_sentinel_identity (t X : String) :
    type_chart t "Not Specified" = 1 ∧
    determine_effectiveness t X "Not Specified" = classify_product (type_chart t X) := by
  refine ⟨type_chart_sentinel t, ?_⟩
  rw [det_eq_classify, type_chart_sentinel, mul_one]

/-! ## Claim C9 -/

/-- Claim C9 (confirmed): on every triple drawn from the 19-value enumeration
(indeed on arbitrary strings) `determine_effectiveness` returns one of the six
band descriptors, and it is exactly the band classification (with
normal-damage fallback) of the product of the two chart lookups. -/
theorem C9_bands (a d1 d2 : String) (_ha : a ∈ TYPES) (_h1 : d1 ∈ TYPES) (_h2 : d2 ∈ TYPES) :
    determine_effectiveness a d1 d2 ∈ sixBands ∧
    determine_effectiveness a d1 d2 = classify_product (type_chart a d1 * type_chart a d2) :=
  ⟨det_mem a d1 d2, det_eq_classify a d1 d2⟩

/-- Witness for C9 at the spec's own example `effectiveness("Water","Fire","Rock")`. -/
theorem C9_witness :
    determine_effectiveness "Water" "Fire" "Rock" ∈ sixBands ∧
    determine_effectiveness "Water" "Fire" "Rock" =
      classify_product (type_chart "Water" "Fire" * type_chart "Water" "Rock") :=
  C9_bands "Water" "Fire" "Rock" (by decide) (by decide) (by decide)

/-! ## Claim C10 -/

/-- Claim C10 (confirmed): `determine_effectiveness` is a total function (the
embedding is a total Lean function mirroring the always-returning Python
code), and any attacker string without an explicit chart row — "Rock",
"Stellar", "Not Specified", or anything else — multiplies by 1 against every
defender, so the result is the normal-damage descriptor for any defender
strings. -/
theorem C10_no_row_attacker (a d1 d2 : String) (h : a ∉ attackRows) :
    type_chart a d1 = 1 ∧
    determine_effectiveness a d1 d2 = "Will do normal amount of damage" := by
  refine ⟨type_chart_default a d1 h, ?_⟩
  rw [det_eq_classify, type_chart_default a d1 h, type_chart_default a d2 h]
  norm_num [classify_product]

/-- Witness for C10 at the unlisted attacker "Stellar". -/
theorem C10_witness :
    "Stellar" ∉ attackRows ∧
    determine_effectiveness "Stellar" "Water" "Flying" = "Will do normal amount of damage" :=
  ⟨by decide, (C10_no_row_attacker "Stellar" "Water" "Flying" (by decide)).2⟩

/-! ## Claim C2 -/

/-- Claim C2 counterexample: a decision whose special-resource flag is set
while the resource is not offered this turn (no terastallize checkbox) is
nevertheless EXECUTED — `execute_move` returns the click on the move button,
with the `terastallize()` failure swallowed (result `false`, discarded).  No
validator runs, and nothing named `IllegalDecision` exists anywhere in the
code, so the claimed failure cannot happen. -/
theorem C2_counterexample :
    execute_move ⟨"Move 1", true, "tera please"⟩
      ⟨[("Switch 3", "Garchomp")], [("Garchomp", "switchpokemon|2")],
       [("Move 1", "move|tackle"), ("Move 2", "move|surf")], false, false⟩ =
    .ok ⟨"move|tackle", some false⟩ := by
  rfl

/-- Claim C2 (corrected): an action symbol absent from the offered mapping
makes `execute_move` fail with an uncaught `KeyError` dict-lookup failure —
not an `IllegalDecision`, which does not exist in the code — and no button is
clicked; the special-resource flag, by contrast, is never validated: a legal
Move action executes regardless of the flag and of resource availability,
merely invoking `terastallize()` (which swallows its own failure) when the
flag is set. -/
theorem C2_lookup_failures (d : BattleMove) (c : BattleControls) :
    (pyStartsWith d.action "Switch" = true →
      c.available_switches.lookup d.action = none →
      execute_move d c = .error (.keyError d.action)) ∧
    (pyStartsWith d.action "Switch" = false →
      pyStartsWith d.action "Move" = true →
      c.moves_dict.lookup d.action = none →
      execute_move d c = .error (.keyError d.action)) ∧
    (∀ v, pyStartsWith d.action "Switch" = false →
      pyStartsWith d.action "Move" = true →
      c.moves_dict.lookup d.action = some v →
      execute_move d c =
        .ok ⟨v, if d.terastallize then some (terastallize c.tera_present c.tera_selected)
                else none⟩) := by
  refine ⟨fun hs hl => ?_, fun hs hm hl => ?_, fun v hs hm hl => ?_⟩ <;>
    simp [execute_move, hs, hl]
  · simp [hm]
  · simp [hm]

/-- Witness for C2 at the spec's own example: offered actions
{"Move 1", "Move 2", "Switch 3"}, candidate action "Switch 5". -/
theorem C2_witness :
    execute_move ⟨"Switch 5", false, "bad switch"⟩
      ⟨[("Switch 3", "Garchomp")], [("Garchomp", "switchpokemon|2")],
       [("Move 1", "move|tackle"), ("Move 2", "move|surf")], true, false⟩ =
    .error (.keyError "Switch 5") :=
  (C2_lookup_failures _ _).1 (by decide) (by decide)

/-! ## Shared lemmas for the team loops -/

/-- Membership through `enumFrom`: the payload of an indexed entry is a list
member. -/
theorem enumFrom_mem {α : Type} (l : List α) :
    ∀ (i : Nat) (x : Nat × α), x ∈ enumFrom i l → x.2 ∈ l := by
  induction l with
  | nil => intro i x hx; cases hx
  | cons a t ih =>
    intro i x hx
    rcases hx with _ | hx
    · exact List.mem_cons_self a t
    · exact List.mem_cons_of_mem a (ih (i + 1) x (by assumption))

/-- Every offered switch names a non-fainted member of the roster. -/
theorem available_switches_sound (t : TeamR) (pr : String × String)
    (hpr : pr ∈ available_switches t) :
    ∃ p ∈ t.pokemon, p.fainted = false ∧ p.name = pr.2 := by
  unfold available_switches at hpr
  rcases List.mem_filterMap.mp hpr with ⟨ip, hmem, heq⟩
  refine ⟨ip.2, enumFrom_mem t.pokemon 0 ip hmem, ?_⟩
  split_ifs at heq with h1 h2
  rcases Option.some.inj heq with rfl
  exact ⟨Bool.not_eq_true _ |>.mp h1, rfl⟩

/-- One opponent step keeps the active slot fainted-free. -/
theorem opponent_step_active (acc : Option PokemonR × List PokemonR) (icon : OppIcon)
    (h : ∀ a, acc.1 = some a → a.fainted = false) :
    ∀ a, (opponent_step acc icon).1 = some a → a.fainted = false := by
  intro a ha
  simp only [opponent_step] at ha
  split_ifs at ha with h1 h2 h3 h4
  · exact h a ha
  · exact h a ha
  · exact h a ha
  · simp only at ha
    rcases Option.some.inj ha with rfl
    exact Bool.not_eq_true _ |>.mp h3
  · exact h a ha

/-- One opponent step keeps the roster fainted-free. -/
theorem opponent_step_roster (acc : Option PokemonR × List PokemonR) (icon : OppIcon)
    (h : ∀ p ∈ acc.2, p.fainted = false) :
    ∀ p ∈ (opponent_step acc icon).2, p.fainted = false := by
  intro p hp
  simp only [opponent_step] at hp
  split_ifs at hp with h1 h2 h3 h4 <;>
    [skip; skip; skip;
     (dsimp only at hp
      simp only [List.mem_append, List.mem_singleton] at hp
      rcases hp with hp | rfl
      · exact h p hp
      · exact Bool.not_eq_true _ |>.mp h3);
     (dsimp only at hp
      simp only [List.mem_append, List.mem_singleton] at hp
      rcases hp with hp | rfl
      · exact h p hp
      · exact Bool.not_eq_true _ |>.mp h3)] <;>
    exact h p hp

/-- The opponent fold keeps both invariants from any invariant-satisfying
accumulator. -/
theorem opponent_fold_sound (icons : List OppIcon) :
    ∀ (acc : Option PokemonR × List PokemonR),
      (∀ a, acc.1 = some a → a.fainted = false) →
      (∀ p ∈ acc.2, p.fainted = false) →
      (∀ a, (icons.foldl opponent_step acc).1 = some a → a.fainted = false) ∧
      (∀ p ∈ (icons.foldl opponent_step acc).2, p.fainted = false) := by
  induction icons with
  | nil => intro acc h1 h2; exact ⟨h1, h2⟩
  | cons i rest ih =>
    intro acc h1 h2
    exact ih (opponent_step acc i) (opponent_step_active acc i h1) (opponent_step_roster acc i h2)

/-! ## Claim C7 -/

/-- Claim C7 counterexample: a switch button whose value reads "active" while
its tooltip marks the Pokemon fainted makes `get_player_team` report a
creature with `fainted = true` as the active Pokemon — the code never checks
the fainted flag when assigning the player's active slot. -/
theorem C7_counterexample :
    ((get_player_team [⟨"Pikachu,active", [], ⟨"Pikachu", 0, true⟩⟩]).active_pokemon.map
      PokemonR.fainted) = some true := by
  rfl

/-- Claim C7 (corrected): the available-switches mapping only ever offers
non-fainted roster members, and the OPPONENT loop never reports a fainted
creature as active (nor keeps one on the revealed roster) because it skips
fainted creatures before the active check; but the PLAYER loop assigns the
active slot purely from the button status, so a fainted creature can be
reported as the player's active Pokemon (see the counterexample). -/
theorem C7_fainted_filters (btns : List SwitchButton) (icons : List OppIcon) :
    (∀ pr ∈ available_switches (get_player_team btns),
      ∃ p ∈ (get_player_team btns).pokemon, p.fainted = false ∧ p.name = pr.2) ∧
    (∀ a, (get_opponent_pokemon icons).1 = some a → a.fainted = false) ∧
    (∀ p ∈ (get_opponent_pokemon icons).2, p.fainted = false) := by
  refine ⟨fun pr hpr => available_switches_sound _ pr hpr, ?_, ?_⟩
  · exact (opponent_fold_sound icons (none, []) (by intro a ha; cases ha) (by intro p hp; cases hp)).1
  · exact (opponent_fold_sound icons (none, []) (by intro a ha; cases ha) (by intro p hp; cases hp)).2

/-- Witness for C7: a revealed, non-fainted opponent marked active is reported
with a false fainted flag. -/
theorem C7_witness :
    (get_opponent_pokemon [⟨"Garchomp (active)", ⟨"tooltip", 100, false⟩⟩]).1 =
      some ⟨"Garchomp", false, 100⟩ ∧
    (⟨"Garchomp", false, (100 : ℚ)⟩ : PokemonR).fainted = false := by
  refine ⟨by rfl, ?_⟩
  exact (C7_fainted_filters [] [⟨"Garchomp (active)", ⟨"tooltip", 100, false⟩⟩]).2.1
    ⟨"Garchomp", false, (100 : ℚ)⟩ (by rfl)

/-! ## Shared lemmas for the battle log -/

/-- The sibling walk equals the spec-side filter of the pre-header prefix. -/
theorem collectActions_eq (l : List LogNode) :
    collectActions l = actionTexts (l.takeWhile (fun n => !isTurnHeader n)) := by
  induction l with
  | nil => rfl
  | cons n rest ih =>
    cases h : isTurnHeader n
    · by_cases hc : isActionDiv n = true ∧ ¬pyStrip n.text = ""
      · simp [collectActions, actionTexts, List.takeWhile_cons, List.filterMap_cons, h, hc, ih]
      · simp [collectActions, actionTexts, List.takeWhile_cons, List.filterMap_cons, h, hc, ih]
    · simp [collectActions, actionTexts, List.takeWhile_cons, h]

/-- The numbered-turn loop agrees with the spec-side segmentation. -/
theorem code_entries_eq_spec (ns : List LogNode) : code_entries ns = spec_segments ns := by
  induction ns with
  | nil => rfl
  | cons n rest ih =>
    by_cases h : isTurnHeader n = true
    · simp [code_entries, spec_segments, h, ih, collectActions_eq]
    · simp [code_entries, spec_segments, h, ih]

/-- The turn numbers of a successful numbered-turn parse are exactly the
header numbers in document order. -/
theorem code_entries_turns (ns : List LogNode) :
    ∀ es, code_entries ns = some es → es.map BattleLogEntry.turn = header_turns ns := by
  induction ns with
  | nil =>
    intro es hes
    cases Option.some.inj hes
    rfl
  | cons n rest ih =>
    intro es hes
    by_cases h : isTurnHeader n = true
    · rw [code_entries] at hes
      simp only [h, if_true] at hes
      rcases hpt : parseTurnNumber n with _ | t <;> rw [hpt] at hes
      · cases hes
      · rcases hrest : code_entries rest with _ | es' <;> rw [hrest] at hes
        · cases hes
        · cases Option.some.inj hes
          simp [header_turns, List.filterMap_cons, h, hpt, ih es' hrest]
    · rw [code_entries] at hes
      simp only [h, if_false] at hes
      simp [header_turns, List.filterMap_cons, h, ih es hes]

/-- When no battle-history div precedes the first turn header, the turn-0
anchor walk agrees with the spec's "everything before the first header". -/
theorem code_turn_zero_eq (ns : List LogNode)
    (h : ∀ n ∈ ns.takeWhile (fun k => !isBattleHistoryDiv k), isTurnHeader n = false) :
    code_turn_zero ns = spec_turn_zero ns := by
  induction ns with
  | nil => rfl
  | cons n rest ih =>
    cases hd : isBattleHistoryDiv n
    · have hn : isTurnHeader n = false := by
        apply h
        simp [List.takeWhile_cons, hd]
      have hna : isActionDiv n = false := by
        simp only [isBattleHistoryDiv] at hd
        simp only [isActionDiv, hd, Bool.false_and]
      have hrest : ∀ k ∈ rest.takeWhile (fun k => !isBattleHistoryDiv k),
          isTurnHeader k = false := by
        intro k hk
        apply h
        simp [List.takeWhile_cons, hd, hk]
      unfold code_turn_zero spec_turn_zero at ih ⊢
      rw [List.dropWhile_cons]
      simp only [hd, Bool.not_false, if_true]
      rw [ih hrest]
      simp [List.takeWhile_cons, hn, actionTexts, List.filterMap_cons, hna]
    · unfold code_turn_zero spec_turn_zero
      rw [List.dropWhile_cons]
      simp only [hd]
      simpa using (collectActions_eq (n :: rest))

/-! ## Claim C5 -/

/-- Claim C5 counterexample: in a fragment whose first battle-history div lies
AFTER the first turn header, the code anchors turn 0 at that div and so emits
a turn-0 entry duplicating turn 1's action, while nothing at all precedes the
first header; the spec-side reading produces no turn-0 entry. -/
theorem C5_counterexample :
    get_battle_log [⟨"h2", ["battle-history"], "Turn 1"⟩, ⟨"div", ["battle-history"], "A"⟩] =
      [⟨0, ["A"]⟩, ⟨1, ["A"]⟩] ∧
    spec_battle_log [⟨"h2", ["battle-history"], "Turn 1"⟩, ⟨"div", ["battle-history"], "A"⟩] =
      [⟨1, ["A"]⟩] := by
  exact ⟨by decide, by decide⟩

/-- Claim C5 (corrected): `get_battle_log` collects as turn 0 everything from
the FIRST battle-history element up to the next turn header — which equals
"everything before the first header" (emitted only when non-empty) exactly
when no turn header precedes that element, as in every real log; the numbered
part is as claimed: header text parsed as integer, actions between consecutive
headers (or after the last) in document order, spacers excluded, trimmed
non-empty texts only. -/
theorem C5_log_structure (ns : List LogNode)
    (h : ∀ n ∈ ns.takeWhile (fun k => !isBattleHistoryDiv k), isTurnHeader n = false) :
    get_battle_log ns = spec_battle_log ns := by
  unfold get_battle_log spec_battle_log
  rw [code_entries_eq_spec, code_turn_zero_eq ns h]

/-- Witness for C5 on a well-formed fragment (lead actions, then two turns). -/
theorem C5_witness :
    get_battle_log
      [⟨"div", ["battle-history"], "Z sent out!"⟩, ⟨"h2", ["battle-history"], "Turn 1"⟩,
       ⟨"div", ["battle-history", "spacer"], ""⟩, ⟨"div", ["battle-history"], " A "⟩,
       ⟨"h2", ["battle-history"], "Turn 2"⟩, ⟨"div", ["battle-history"], "B"⟩] =
    spec_battle_log
      [⟨"div", ["battle-history"], "Z sent out!"⟩, ⟨"h2", ["battle-history"], "Turn 1"⟩,
       ⟨"div", ["battle-history", "spacer"], ""⟩, ⟨"div", ["battle-history"], " A "⟩,
       ⟨"h2", ["battle-history"], "Turn 2"⟩, ⟨"div", ["battle-history"], "B"⟩] :=
  C5_log_structure _ (by decide)

/-! ## Claim C6 -/

/-- Claim C6 counterexample: headers out of order (or a post-header anchor for
turn 0) yield non-increasing turn numbers: here the parsed log is
turns [0, 2, 1]. -/
theorem C6_counterexample :
    ((get_battle_log
      [⟨"div", ["battle-history"], "Z"⟩, ⟨"h2", ["battle-history"], "Turn 2"⟩,
       ⟨"div", ["battle-history"], "A"⟩, ⟨"h2", ["battle-history"], "Turn 1"⟩,
       ⟨"div", ["battle-history"], "B"⟩]).map BattleLogEntry.turn).drop 1 = [2, 1] ∧
    ¬ List.Chain' (· < ·) ([2, 1] : List Int) := by
  refine ⟨by decide, ?_⟩
  simp [List.chain'_cons]

/-- Claim C6 (corrected): the parsed turn numbers are strictly increasing
after the optional leading turn-0 entry PROVIDED the header numbers are
strictly increasing in document order and positive (as in every real battle
log); nothing in the code enforces this for arbitrary markup. -/
theorem C6_monotone (ns : List LogNode)
    (hinc : List.Chain' (· < ·) (header_turns ns))
    (hpos : ∀ t ∈ header_turns ns, 0 < t) :
    List.Chain' (· < ·) ((get_battle_log ns).map BattleLogEntry.turn) := by
  unfold get_battle_log
  rcases hce : code_entries ns with _ | es
  · simp
  · have hmap := code_entries_turns ns es hce
    by_cases h0 : code_turn_zero ns = []
    · simp [h0, hmap, hinc]
    · simp only [h0, ne_eq, not_false_iff, if_true, List.map_append, List.map_cons,
        List.map_nil, List.singleton_append]
      rw [hmap]
      rw [List.chain'_cons']
      refine ⟨fun b hb => hpos b (List.mem_of_mem_head? hb), hinc⟩

/-- Witness for C6 on a well-formed two-turn fragment. -/
theorem C6_witness :
    List.Chain' (· < ·) ((get_battle_log
      [⟨"div", ["battle-history"], "lead"⟩, ⟨"h2", ["battle-history"], "Turn 1"⟩,
       ⟨"div", ["battle-history"], "A"⟩, ⟨"h2", ["battle-history"], "Turn 2"⟩,
       ⟨"div", ["battle-history"], "B"⟩]).map BattleLogEntry.turn) :=
  C6_monotone _
    (by
      rw [show header_turns
          [⟨"div", ["battle-history"], "lead"⟩, ⟨"h2", ["battle-history"], "Turn 1"⟩,
           ⟨"div", ["battle-history"], "A"⟩, ⟨"h2", ["battle-history"], "Turn 2"⟩,
           ⟨"div", ["battle-history"], "B"⟩] = [1, 2] from by decide]
      exact List.chain'_cons.mpr ⟨by norm_num, List.chain'_singleton 2⟩)
    (by
      rw [show header_turns
          [⟨"div", ["battle-history"], "lead"⟩, ⟨"h2", ["battle-history"], "Turn 1"⟩,
           ⟨"div", ["battle-history"], "A"⟩, ⟨"h2", ["battle-history"], "Turn 2"⟩,
           ⟨"div", ["battle-history"], "B"⟩] = [1, 2] from by decide]
      decide)

/-! ## Claim C3 -/

/-- Claim C3 (code bug): the inline comment of main.py line 285 documents the
intent "Remove the 'Ability:' or 'Possible abilities:' prefix", but the regex
`^(.*abilities?:)` matches only "abilitie:" / "abilities:" and can never match
the singular label "Ability:".  So a tooltip whose ability paragraph reads
"Ability: Intimidate" yields ["Ability: Intimidate"] with the label NOT
stripped, while the plural form works as documented. -/
theorem C3_ability_label :
    parse_abilities [⟨some "Ability:", "Ability: Intimidate", none⟩] = ["Ability: Intimidate"] ∧
    parse_abilities [⟨some "Possible abilities:", "Possible abilities: Intimidate, Defiant", none⟩] =
      ["Intimidate", "Defiant"] ∧
    (["Ability: Intimidate"] : List String) ≠ ["Intimidate"] :=
  ⟨by decide, by decide, by decide⟩

/-! ## Claim C4 -/

/-- Claim C4 (confirmed): for any tooltip fragment, (1) if the first paragraph
whose `<small>` contains "HP:" has a "(fainted)" marker in its lower-cased
text, the parse reports `fainted = true` and `hp = 0` (the numeric branch is
never consulted); (2) if the HP paragraph carries no recognized status code,
the status is "none"; (3) if the HP paragraph is not fainted and has no
percentage match (or there is no HP paragraph at all), the default hp of 100
is preserved. -/
theorem C4_hp_fainted_status (ps : List Paragraph) :
    (∀ p, ps.find? isHpPara = some p →
      strContains (String.mk (lowerCh p.text.toList)) "(fainted)" = true →
      (parse_hp_status ps).fainted = true ∧ (parse_hp_status ps).hp = 0) ∧
    ((∀ p, ps.find? isHpPara = some p →
      (match p.statusSpan with
       | some t => status_abbreviation_map (String.mk (upperCh (trimCh t.toList)))
       | none => none) = none) →
      (parse_hp_status ps).status = "none") ∧
    ((∀ p, ps.find? isHpPara = some p →
      strContains (String.mk (lowerCh p.text.toList)) "(fainted)" = false ∧
      findPercent p.text.toList = none) →
      (parse_hp_status ps).hp = 100) := by
  refine ⟨?_, ?_, ?_⟩
  · intro p hfind hmark
    simp only [String.toList] at hmark
    simp [parse_hp_status, hfind, hmark]
  · intro hst
    rcases hfind : ps.find? isHpPara with _ | p
    · simp [parse_hp_status, hfind]
    · have hp := hst p hfind
      rcases hsp : p.statusSpan with _ | t
      · simp [parse_hp_status, hfind, hsp]
      · rw [hsp] at hp
        simp only [String.toList] at hp
        simp [parse_hp_status, hfind, hsp, hp]
  · intro h3
    rcases hfind : ps.find? isHpPara with _ | p
    · simp [parse_hp_status, hfind]
    · obtain ⟨hmark, hpc⟩ := h3 p hfind
      simp only [String.toList] at hmark hpc
      simp [parse_hp_status, hfind, hmark, hpc]

/-- Witness for C4: a fainted HP paragraph that also shows a percentage, and a
separate fragment with no percentage at all. -/
theorem C4_witness :
    ((parse_hp_status [⟨some "HP:", "HP: 52.5% (fainted)", none⟩]).fainted = true ∧
     (parse_hp_status [⟨some "HP:", "HP: 52.5% (fainted)", none⟩]).hp = 0) ∧
    (parse_hp_status [⟨some "HP:", "HP: 52.5% (fainted)", none⟩]).status = "none" ∧
    (parse_hp_status [⟨some "HP:", "HP status unknown", none⟩]).hp = 100 := by
  refine ⟨?_, ?_, ?_⟩
  · exact (C4_hp_fainted_status _).1 ⟨some "HP:", "HP: 52.5% (fainted)", none⟩ (by decide) (by decide)
  · refine (C4_hp_fainted_status _).2.1 ?_
    intro p hp
    obtain rfl : p = _ := (Option.some.inj hp).symm
    rfl
  · refine (C4_hp_fainted_status _).2.2 ?_
    intro p hp
    obtain rfl : p = _ := (Option.some.inj hp).symm
    exact ⟨by decide, by decide⟩

end Showdown
